import Mathlib

/-!
Verification development for `src/common/backport14.h` of the Ceph repository:
C++11 backports of C++14/17 library utilities (`make_unique`, constexpr `max`,
`not_fn`, `ostream_joiner`).  Each C++ entity is shallowly embedded as an
executable Lean definition; machine-level aspects that the claims talk about
(which argument a reference points at, value category of a forwarded argument,
the address stored in a pointer member, the sequence of chunks written to a
stream) are made explicit in the state.
-/

namespace ceph

/-! ## `_backport14::max`

Source (`backport14.h`):
`constexpr const T& max(const T& a, const T& b) { return a < b ? b : a; }`

The function returns a *reference* to one of its two arguments.  `max` embeds
the returned value; `max_sel` embeds which of the two argument objects the
returned reference is bound to (`.second` iff the condition `a < b` selects
the `b` branch). -/

/-- Which of the two argument objects a returned reference is bound to. -/
inductive ArgSel where
  | first : ArgSel
  | second : ArgSel
deriving DecidableEq

/-- Value computed by `_backport14::max`: `a < b ? b : a`. -/
def max {α : Type} [LinearOrder α] (a b : α) : α :=
  if a < b then b else a

/-- Which argument `_backport14::max` returns a reference to:
`b` (the second) when `a < b`, otherwise `a` (the first). -/
def max_sel {α : Type} [LinearOrder α] (a b : α) : ArgSel :=
  if a < b then ArgSel.second else ArgSel.first

/-! ## `_backport14::make_unique`

The `uniquity<T>` trait has three specializations: the primary one exposes a
`datum` alias (plain `T`), the `T[]` one exposes `array`, and the `T[N]` one
exposes `verboten`; each `make_unique` overload is keyed on one of those
aliases, and the `verboten` overload is `= delete`. -/

/-- Shape of the type argument `T` given to `make_unique<T>`. -/
inductive TypeShape where
  | plain : TypeShape
  | unboundedArray : TypeShape
  | boundedArray : Nat → TypeShape
deriving DecidableEq

/-- The three `make_unique` overloads, keyed by the member alias of
`uniquity<T>` that names their return type. -/
inductive MakeUniqueOverload where
  | datum : MakeUniqueOverload
  | array : MakeUniqueOverload
  | verboten : MakeUniqueOverload
deriving DecidableEq

/-- The `uniquity` trait dispatch: which overload the shape of `T` selects.
Primary template exposes `datum`; the `T[]` specialization exposes `array`;
the `T[N]` specialization exposes `verboten`. -/
def uniquity : TypeShape → MakeUniqueOverload
  | TypeShape.plain => MakeUniqueOverload.datum
  | TypeShape.unboundedArray => MakeUniqueOverload.array
  | TypeShape.boundedArray _ => MakeUniqueOverload.verboten

/-- Whether an overload can actually be called: the `verboten` one is
`= delete`, so calling it is a compile-time error. -/
def overload_usable : MakeUniqueOverload → Bool
  | MakeUniqueOverload.verboten => false
  | _ => true

/-- Value of a scalar (arithmetic/pointer) object in the C++ object model:
either an indeterminate value or a definite one. -/
inductive CVal where
  | indet : CVal
  | val : Int → CVal
deriving DecidableEq

/-- C++ semantics of *value-initialization* of a scalar: zero-initialization.
This is what `new E[n]()` (note the parentheses) performs on each element. -/
def valueInitScalar : CVal := CVal.val 0

/-- C++ semantics of *default-initialization* of a scalar: no initialization
is performed, the object holds an indeterminate value. -/
def defaultInitScalar : CVal := CVal.indet

/-- The heap array produced by the `T[]` overload of `make_unique`. -/
structure UniqueArr where
  elems : List CVal
deriving DecidableEq

/-- The array overload of `_backport14::make_unique`:
`return std::unique_ptr<T>(new remove_extent_t<T>[n]());` — a sequence of
`n` elements, each value-initialized (the trailing `()`). -/
def make_unique_array (n : Nat) : UniqueArr :=
  { elems := List.replicate n valueInitScalar }

/-- Value category of a constructor argument as received by `make_unique`. -/
inductive ValCat where
  | lvalue : ValCat
  | rvalue : ValCat
deriving DecidableEq

/-- A constructor argument: its value together with its value category. -/
structure Arg where
  value : Int
  cat : ValCat
deriving DecidableEq

/-- `std::forward<Args>(args)` under perfect forwarding (`Args&&` deduction):
the argument is passed on with its original value category preserved. -/
def fwd (a : Arg) : Arg := a

/-- An owning handle: the list of objects the handle owns (destroying the
handle destroys exactly these objects). -/
structure UniquePtr (α : Type) where
  owned : List α

/-- The plain-`T` overload of `_backport14::make_unique`:
`return std::unique_ptr<T>(new T(std::forward<Args>(args)...));` — one new
`T` constructed from the forwarded arguments, exclusively owned. -/
def make_unique_plain {α : Type} (ctor : List Arg → α) (args : List Arg) :
    UniquePtr α :=
  { owned := [ctor (args.map fwd)] }

/-- Objects destroyed when a `UniquePtr` handle is destroyed: exactly the
objects it owns (`std::unique_ptr`'s destructor deletes the managed object). -/
def destroy {α : Type} (p : UniquePtr α) : List α := p.owned

/-! ## `_backport17::not_fn`

`not_fn_result<F>` stores a decayed copy `fn` of the wrapped callable and has
four `operator()` overloads (`&`, `const&`, `&&`, `const&&`), each of whose
body is a single invocation of `fn` on the forwarded arguments followed by
logical negation.  Each call model returns the boolean result paired with the
list of invocations of `fn` the body performs (argument per invocation). -/

/-- The wrapper object built by `not_fn`: holds the decayed copy `fn`. -/
structure NotFnResult (α : Type) where
  fn : α → Bool

/-- `_backport17::not_fn`: wrap `fn` in a `not_fn_result`. -/
def not_fn {α : Type} (f : α → Bool) : NotFnResult α :=
  { fn := f }

/-- `operator()(Args&&...) &` : `return !fn(std::forward<Args>(args)...);` -/
def call_lvalue {α : Type} (g : NotFnResult α) (a : α) : Bool × List α :=
  (!(g.fn a), [a])

/-- `operator()(Args&&...) const&` : one invocation of `fn`, negated. -/
def call_const_lvalue {α : Type} (g : NotFnResult α) (a : α) : Bool × List α :=
  (!(g.fn a), [a])

/-- `operator()(Args&&...) &&` : `return !std::move(fn)(...);` -/
def call_rvalue {α : Type} (g : NotFnResult α) (a : α) : Bool × List α :=
  (!(g.fn a), [a])

/-- `operator()(Args&&...) const&&` : one invocation of `fn`, negated. -/
def call_const_rvalue {α : Type} (g : NotFnResult α) (a : α) : Bool × List α :=
  (!(g.fn a), [a])

/-! ## `_backport_ts::ostream_joiner`

Two views of the joiner are embedded.

`JoinerRep` models the raw members, with pointers as addresses: `out_stream`
holds the address stored in the `ostream_type* out_stream` member.  The
const-reference-delimiter constructor initializes it with
`std::addressof(out_stream)` — the address of the joiner's *own member*
(moreover of type `ostream_type**`, so the initialization is ill-formed) —
while the rvalue-delimiter constructor initializes it with
`std::addressof(s)`.

`JoinerState` models the observable behaviour through the bound stream:
`stream` is the sequence of chunks the joiner has written to `*out_stream`
(each `<<` appends one chunk). -/

/-- Raw members of an `ostream_joiner`, pointers modelled as addresses. -/
structure JoinerRep where
  out_stream : Nat
  delim : String
  first_element : Bool
deriving DecidableEq

/-- The const-reference-delimiter constructor:
`out_stream(std::addressof(out_stream)), delim(delimiter), first_element(true)`.
`sAddr` is the address of the stream argument `s`; `memberAddr` is the address
at which the joiner's own `out_stream` member lives.  The initializer takes
the address of the member, not of `s`. -/
def ostream_joiner_ctor_copy (sAddr memberAddr : Nat) (delimiter : String) :
    JoinerRep :=
  { out_stream := memberAddr, delim := delimiter, first_element := true }

/-- The rvalue-delimiter constructor:
`out_stream(std::addressof(s)), delim(std::move(delimiter)), first_element(true)`. -/
def ostream_joiner_ctor_move (sAddr : Nat) (delimiter : String) : JoinerRep :=
  { out_stream := sAddr, delim := delimiter, first_element := true }

/-- Behavioural state of a joiner bound to a stream: the chunks it has
written to the stream, the owned delimiter, and the first-element flag. -/
structure JoinerState where
  stream : List String
  delim : String
  first_element : Bool
deriving DecidableEq

/-- A freshly constructed joiner: nothing written, `first_element` true. -/
def joiner_init (delimiter : String) : JoinerState :=
  { stream := [], delim := delimiter, first_element := true }

/-- `operator=(const T& value)`:
`if (!first_element) *out_stream << delim; first_element = false;
*out_stream << value;` -/
def joiner_assign (j : JoinerState) (value : String) : JoinerState :=
  let j1 :=
    if !j.first_element then { j with stream := j.stream ++ [j.delim] } else j
  { j1 with stream := j1.stream ++ [value], first_element := false }

/-- What a C++ member function hands back: a reference bound to an object,
or a pointer value (`this`). -/
inductive CppRet (α : Type) where
  | ref : α → CppRet α
  | ptr : α → CppRet α
deriving DecidableEq

/-- `operator*()`: `return *this;` — no stream write, returns the joiner. -/
def op_star (j : JoinerState) : JoinerState × CppRet JoinerState :=
  (j, CppRet.ref j)

/-- `operator++()`: `return *this;` — no stream write, returns the joiner. -/
def op_preinc (j : JoinerState) : JoinerState × CppRet JoinerState :=
  (j, CppRet.ref j)

/-- `operator++(int)`: `return this;` — no stream write, but the body returns
the pointer `this` where the declared return type is `ostream_joiner&`. -/
def op_postinc (j : JoinerState) : JoinerState × CppRet JoinerState :=
  (j, CppRet.ptr j)

/-- Expected write pattern of a joiner: first value bare, the delimiter
immediately before every later value. -/
def joinTail (d : String) : List String → List String
  | [] => []
  | v :: rest => d :: v :: joinTail d rest

/-- Expected write pattern for a whole value sequence: no leading delimiter,
then `joinTail` for the remaining values. -/
def joinPattern (d : String) : List String → List String
  | [] => []
  | v :: rest => v :: joinTail d rest

end ceph

/-! ## Helper lemmas -/

/-- After the first assignment (`first_element = false`), every further
assignment appends the delimiter and then the value. -/
theorem foldl_joiner_assign_after_first (d : String) (vs : List String)
    (s : List String) :
    vs.foldl ceph.joiner_assign
        { stream := s, delim := d, first_element := false } =
      { stream := s ++ ceph.joinTail d vs, delim := d,
        first_element := false } := by
  induction vs generalizing s with
  | nil => simp [ceph.joinTail]
  | cons v rest ih =>
      simp only [List.foldl_cons]
      have hstep :
          ceph.joiner_assign
              { stream := s, delim := d, first_element := false } v =
            { stream := s ++ [d, v], delim := d, first_element := false } := by
        simp [ceph.joiner_assign]
      rw [hstep, ih]
      simp [ceph.joinTail]

/-! ## Claims -/

/-- Claim C1 (code bug): the spec says both constructors bind the adapter to
the stream `s`, but the const-reference-delimiter constructor initializes the
`out_stream` member from `std::addressof(out_stream)` — the address of the
joiner's own member (an `ostream_type**`, ill-formed as an `ostream_type*`
initializer) — so the adapter built by that constructor is not bound to `s`;
only the rvalue-delimiter constructor binds to `s`.  Evaluated at stream
address 100 and member address 200. -/
theorem spec_c1_ctor_copy_not_bound :
    (ceph.ostream_joiner_ctor_copy 100 200 ",").out_stream = 200 ∧
      (ceph.ostream_joiner_ctor_copy 100 200 ",").out_stream ≠ 100 ∧
      (ceph.ostream_joiner_ctor_move 100 ",").out_stream = 100 := by
  refine ⟨rfl, by decide, rfl⟩

/-- Claim C2, counterexample: the claim says that when the two arguments
compare equal, `max` returns a reference to the *second* argument; but
`a < b ? b : a` with `a = b = 1` takes the `a` branch, returning a reference
to the first argument. -/
theorem spec_c2_counterexample :
    ¬ (ceph.max_sel (1 : Int) 1 = ceph.ArgSel.second) := by
  decide

/-- Claim C2, amended: `max(a, b)` returns a reference to whichever argument
compares not-less-than the other; when the arguments compare equal it returns
a reference to the *first* argument `a` (ties toward the first operand, as
`a < b ? b : a` behaves and as `std::max` specifies). -/
theorem spec_c2_max_amended {α : Type} [LinearOrder α] (a b : α) :
    ¬ ceph.max a b < a ∧ ¬ ceph.max a b < b ∧
      (ceph.max a b = a ∨ ceph.max a b = b) ∧
      (ceph.max_sel a b = ceph.ArgSel.second ↔ a < b) ∧
      (ceph.max_sel a b = ceph.ArgSel.first ↔ b ≤ a) := by
  unfold ceph.max ceph.max_sel
  by_cases h : a < b
  · rw [if_pos h, if_pos h]
    exact ⟨lt_asymm h, lt_irrefl b, Or.inr rfl,
      ⟨fun _ => h, fun _ => rfl⟩,
      ⟨fun hab => ceph.ArgSel.noConfusion hab,
        fun hle => absurd h (not_lt.mpr hle)⟩⟩
  · rw [if_neg h, if_neg h]
    exact ⟨lt_irrefl a, h, Or.inl rfl,
      ⟨fun hab => ceph.ArgSel.noConfusion hab, fun hlt => absurd hlt h⟩,
      ⟨fun _ => not_lt.mp h, fun _ => rfl⟩⟩

/-- Claim C2, witness: the amended theorem instantiated at the concrete
equal pair `(2, 2)` over `Int`. -/
theorem spec_c2_max_amended_witness :
    ¬ ceph.max (2 : Int) 2 < 2 ∧ ¬ ceph.max (2 : Int) 2 < 2 ∧
      (ceph.max (2 : Int) 2 = 2 ∨ ceph.max (2 : Int) 2 = 2) ∧
      (ceph.max_sel (2 : Int) 2 = ceph.ArgSel.second ↔ (2 : Int) < 2) ∧
      (ceph.max_sel (2 : Int) 2 = ceph.ArgSel.first ↔ (2 : Int) ≤ 2) :=
  spec_c2_max_amended (2 : Int) 2

/-- Claim C3 (code bug): the spec says post-increment is a no-op returning
the joiner itself, but `operator++(int)` ends with `return this;` — it hands
back the pointer `this` where the declared return type `ostream_joiner&`
requires the joiner itself (ill-formed; the evident intent is
`return *this;`).  Evaluated on a fresh joiner with delimiter `","`:
the state is untouched but the returned entity is the pointer, not a
reference to the joiner. -/
theorem spec_c3_postinc_returns_pointer :
    ceph.op_postinc (ceph.joiner_init ",") =
        (ceph.joiner_init ",", ceph.CppRet.ptr (ceph.joiner_init ",")) ∧
      (ceph.op_postinc (ceph.joiner_init ",")).2 ≠
        ceph.CppRet.ref (ceph.joiner_init ",") := by
  refine ⟨rfl, by decide⟩

/-- Claim C4, counterexample: the claim says the elements of
`make_unique<E[]>(n)` are default-initialized; for a scalar element type,
default-initialization leaves the value indeterminate, but the element of
`make_unique_array 1` is the value-initialized (zero) value, not the
indeterminate one. -/
theorem spec_c4_counterexample :
    ¬ ((ceph.make_unique_array 1).elems[0]? = some ceph.defaultInitScalar) := by
  decide

/-- Claim C4, amended: for every length `n ≥ 0`, `make_unique<E[]>(n)`
returns exclusive ownership of a contiguous sequence of exactly `n`
*value-initialized* elements (`new E[n]()` — zero-valued for scalar types). -/
theorem spec_c4_array_amended (n : Nat) :
    (ceph.make_unique_array n).elems.length = n ∧
      ∀ e ∈ (ceph.make_unique_array n).elems, e = ceph.valueInitScalar := by
  constructor
  · simp [ceph.make_unique_array]
  · intro e he
    exact List.eq_of_mem_replicate he

/-- Claim C4, witness: the amended theorem instantiated at length 2. -/
theorem spec_c4_array_amended_witness :
    (ceph.make_unique_array 2).elems.length = 2 ∧
      ∀ e ∈ (ceph.make_unique_array 2).elems, e = ceph.valueInitScalar :=
  spec_c4_array_amended 2

/-- Claim C5: every assigned value except the first is immediately preceded
by one write of the delimiter; concretely, a joiner with delimiter `","`
assigned `"1"`, `"2"`, `"3"` contributes exactly `"1,2,3"` to the stream. -/
theorem spec_c5_delimiter_between :
    (∀ (d : String) (vs : List String),
        (vs.foldl ceph.joiner_assign (ceph.joiner_init d)).stream =
          ceph.joinPattern d vs) ∧
      String.join
          ((["1", "2", "3"].foldl ceph.joiner_assign
            (ceph.joiner_init ",")).stream) =
        "1,2,3" := by
  constructor
  · intro d vs
    cases vs with
    | nil => simp [ceph.joiner_init, ceph.joinPattern]
    | cons v rest =>
        simp only [List.foldl_cons]
        have hfirst :
            ceph.joiner_assign (ceph.joiner_init d) v =
              { stream := [v], delim := d, first_element := false } := by
          simp [ceph.joiner_assign, ceph.joiner_init]
        rw [hfirst, foldl_joiner_assign_after_first]
        simp [ceph.joinPattern]
  · rfl

/-- Claim C6: `not_fn(f)` yields a wrapper whose invocation, under every call
qualifier (mutable lvalue, const lvalue, rvalue, const rvalue), returns the
logical negation of `f` at the same arguments and invokes the wrapped `f`
exactly once with those arguments. -/
theorem spec_c6_not_fn_negates {α : Type} (f : α → Bool) (a : α) :
    ceph.call_lvalue (ceph.not_fn f) a = (!(f a), [a]) ∧
      ceph.call_const_lvalue (ceph.not_fn f) a = (!(f a), [a]) ∧
      ceph.call_rvalue (ceph.not_fn f) a = (!(f a), [a]) ∧
      ceph.call_const_rvalue (ceph.not_fn f) a = (!(f a), [a]) :=
  ⟨rfl, rfl, rfl, rfl⟩

/-- Claim C7: for every bounded array type `T[N]`, the `uniquity` trait
selects the `verboten` overload of `make_unique`, which is `= delete`, so the
call is a compile-time error and no runtime value is produced. -/
theorem spec_c7_bounded_array_deleted (n : Nat) :
    ceph.uniquity (ceph.TypeShape.boundedArray n) =
        ceph.MakeUniqueOverload.verboten ∧
      ceph.overload_usable
          (ceph.uniquity (ceph.TypeShape.boundedArray n)) = false :=
  ⟨rfl, rfl⟩

/-- Claim C8: `make_unique<T>(args...)` forwards each argument preserving its
value category, constructs exactly one `T` from those arguments, returns
exclusive ownership of it, and destroying the handle destroys exactly that
one object. -/
theorem spec_c8_plain_make_unique {α : Type} (ctor : List ceph.Arg → α)
    (args : List ceph.Arg) :
    (ceph.make_unique_plain ctor args).owned = [ctor args] ∧
      (ceph.make_unique_plain ctor args).owned.length = 1 ∧
      ceph.destroy (ceph.make_unique_plain ctor args) = [ctor args] ∧
      args.map ceph.fwd = args := by
  have hfwd : ceph.fwd = id := rfl
  have hmap : args.map ceph.fwd = args := by rw [hfwd, List.map_id]
  refine ⟨?_, ?_, ?_, hmap⟩ <;>
    simp [ceph.make_unique_plain, ceph.destroy, hmap]

/-- Claim C9: a joiner that is constructed but never assigned contributes
nothing to the stream, and dereference, pre-increment and post-increment all
leave the stream contribution unchanged. -/
theorem spec_c9_no_write_without_assign (d : String) (j : ceph.JoinerState) :
    (ceph.joiner_init d).stream = [] ∧
      (ceph.op_star j).1.stream = j.stream ∧
      (ceph.op_preinc j).1.stream = j.stream ∧
      (ceph.op_postinc j).1.stream = j.stream :=
  ⟨rfl, rfl, rfl, rfl⟩

/-- Claim C10: `make_unique<E[]>(n)` value-initializes its elements
(`new E[n]()` with the trailing parentheses), so for scalar element types
every element at index `i < n` reads as zero. -/
theorem spec_c10_value_initialized (n i : Nat) (h : i < n) :
    (ceph.make_unique_array n).elems[i]? = some (ceph.CVal.val 0) := by
  have hl : i < (ceph.make_unique_array n).elems.length := by
    simpa [ceph.make_unique_array] using h
  rw [List.getElem?_eq_getElem hl]
  simp [ceph.make_unique_array, ceph.valueInitScalar]

/-- Claim C10, witness: the theorem applied at `n = 3`, `i = 1`. -/
theorem spec_c10_value_initialized_witness :
    (ceph.make_unique_array 3).elems[1]? = some (ceph.CVal.val 0) :=
  spec_c10_value_initialized 3 1 (by decide)
